import Mathlib

/-!
Shallow embedding of the status-line renderer (Rust sources under `src/`):
the color helpers (`display/colors.rs`), the domain value types
(`domain/usage.rs`, `domain/context.rs`, `domain/session.rs`,
`domain/git.rs`, `domain/input.rs`) and the status-line builder
(`display/status_line.rs`), together with theorems settling the frozen
claims about them.

Machine integers (`u8`, `u32`, `u64`) are embedded as `Nat`, with an
explicit `% 2 ^ 64` at the one place where `u64` overflow matters
(`ContextUsageInfo.percentage`).  `f64` inputs to
`UsagePercentage.from_float` are embedded as `ℚ` (exact for every finite
representable double, and `f64::round`/`clamp`/`as u8` are exact
operations on that value).  The ambient local timezone used by
`chrono::Local` is threaded as an explicit offset-in-seconds parameter.
-/

namespace StatusLine

/-- RGB color for terminal output, from `display/colors.rs` (`RgbColor`);
the `u8` components are embedded as `Nat`. -/
structure RgbColor where
  r : Nat
  g : Nat
  b : Nat
deriving DecidableEq, Repr

/-- Green constant (`RgbColor::GREEN`). -/
def RgbColor.GREEN : RgbColor := ⟨0, 255, 0⟩

/-- Yellow constant (`RgbColor::YELLOW`). -/
def RgbColor.YELLOW : RgbColor := ⟨255, 255, 0⟩

/-- Red constant (`RgbColor::RED`). -/
def RgbColor.RED : RgbColor := ⟨255, 100, 100⟩

/-- ANSI reset sequence (`RgbColor::RESET`). -/
def RgbColor.RESET : String := "\x1b[0m"

/-- ANSI 24-bit foreground escape (`RgbColor::to_ansi`). -/
def RgbColor.to_ansi (c : RgbColor) : String :=
  "\x1b[38;2;" ++ toString c.r ++ ";" ++ toString c.g ++ ";" ++ toString c.b ++ "m"

/-- Wrap text in the color and a reset (`RgbColor::colorize`). -/
def RgbColor.colorize (c : RgbColor) (text : String) : String :=
  c.to_ansi ++ text ++ RgbColor.RESET

/-- Usage percentage from `domain/usage.rs` (`UsagePercentage`), a `u8`
newtype whose constructors clamp into `0..=100`; the documented range
invariant is carried as a proof field so that `threshold`'s
`unreachable!()` arm is genuinely unreachable. -/
structure UsagePercentage where
  val : Nat
  val_le : val ≤ 100

/-- Usage threshold levels from `domain/usage.rs` (`UsageThreshold`). -/
inductive UsageThreshold where
  | Normal
  | Warning
  | Critical
deriving DecidableEq, Repr

/-- Clamping constructor (`UsagePercentage::new`): `value.min(100)`. -/
def UsagePercentage.new (value : Nat) : UsagePercentage :=
  ⟨min value 100, by omega⟩

/-- Round half away from zero, the semantics of `f64::round`, on the exact
rational value of the input double. -/
def rround (q : ℚ) : Int :=
  if 0 ≤ q then ⌊q + 1 / 2⌋ else -⌊-q + 1 / 2⌋

/-- Float constructor (`UsagePercentage::from_float`):
`Self::new(value.round().clamp(0.0, 100.0) as u8)`.  `clamp(0.0, 100.0)`
on the integer-valued rounded result is `max 0 (min 100 ·)`, and the
`as u8` cast is then exact, i.e. `Int.toNat`. -/
def UsagePercentage.from_float (value : ℚ) : UsagePercentage :=
  UsagePercentage.new (Int.toNat (max 0 (min 100 (rround value))))

/-- Threshold classification (`UsagePercentage::threshold`): the Rust
ranges `0..=49`, `50..=74`, `75..=100` (the `_` arm is `unreachable!()`
thanks to the range invariant). -/
def UsagePercentage.threshold (p : UsagePercentage) : UsageThreshold :=
  if p.val ≤ 49 then UsageThreshold.Normal
  else if p.val ≤ 74 then UsageThreshold.Warning
  else UsageThreshold.Critical

/-- Tier color (`UsageThreshold::color`). -/
def UsageThreshold.color : UsageThreshold → RgbColor
  | UsageThreshold.Normal => RgbColor.GREEN
  | UsageThreshold.Warning => RgbColor.YELLOW
  | UsageThreshold.Critical => RgbColor.RED

/-- Context window usage from `domain/context.rs` (`ContextUsageInfo`);
the `u64` token counts are embedded as `Nat`. -/
structure ContextUsageInfo where
  used_tokens : Nat
  total_tokens : Nat

/-- Context usage threshold levels from `domain/context.rs`
(`ContextThreshold`). -/
inductive ContextThreshold where
  | Normal
  | Warning
  | Critical
deriving DecidableEq, Repr

/-- Usage percentage (`ContextUsageInfo::percentage`): zero when
`total_tokens == 0`, else `(used_tokens * 100) / total_tokens` where the
multiplication is `u64` arithmetic, hence the explicit `% 2 ^ 64`. -/
def ContextUsageInfo.percentage (c : ContextUsageInfo) : Nat :=
  if c.total_tokens = 0 then 0
  else (c.used_tokens * 100 % 2 ^ 64) / c.total_tokens

/-- Threshold classification (`ContextUsageInfo::threshold`) with
`WARNING_PCT = 70` and `CRITICAL_PCT = 90`. -/
def ContextUsageInfo.threshold (c : ContextUsageInfo) : ContextThreshold :=
  let pct := c.percentage
  if pct < 70 then ContextThreshold.Normal
  else if pct < 90 then ContextThreshold.Warning
  else ContextThreshold.Critical

/-- Display form (`ContextUsageInfo::format_display`): `"{pct}%"`. -/
def ContextUsageInfo.format_display (c : ContextUsageInfo) : String :=
  toString c.percentage ++ "%"

/-- Tier color (`ContextThreshold::color`). -/
def ContextThreshold.color : ContextThreshold → RgbColor
  | ContextThreshold.Normal => RgbColor.GREEN
  | ContextThreshold.Warning => RgbColor.YELLOW
  | ContextThreshold.Critical => RgbColor.RED

/-- Tier indicator glyph (`ContextThreshold::indicator`). -/
def ContextThreshold.indicator : ContextThreshold → String
  | ContextThreshold.Normal => ""
  | ContextThreshold.Warning => "⚠️"
  | ContextThreshold.Critical => "🔴"

/-- Session transcript size in bytes from `domain/session.rs`
(`SessionSize`), a `u64` newtype embedded as `Nat`. -/
structure SessionSize where
  bytes : Nat

/-- Session size threshold levels from `domain/session.rs`
(`SizeThreshold`). -/
inductive SizeThreshold where
  | Normal
  | Warning
  | Critical
deriving DecidableEq, Repr

/-- Threshold classification (`SessionSize::threshold`) with
`WARNING_THRESHOLD = 5 * 1024 * 1024` and
`CRITICAL_THRESHOLD = 15 * 1024 * 1024`. -/
def SessionSize.threshold (s : SessionSize) : SizeThreshold :=
  if s.bytes < 5 * 1024 * 1024 then SizeThreshold.Normal
  else if s.bytes < 15 * 1024 * 1024 then SizeThreshold.Warning
  else SizeThreshold.Critical

/-- Round `num / den` to the nearest integer, ties to even: the rounding
rule Rust's `"{:.1}"` float formatting applies to the exact decimal value
of its argument. -/
def roundHalfEven (num den : Nat) : Nat :=
  let q := num / den
  let r := num % den
  if 2 * r < den then q
  else if den < 2 * r then q + 1
  else if q % 2 = 0 then q else q + 1

/-- Display form (`SessionSize::format_display`): one-decimal megabytes
(`format!("{:.1}MB", self.0 as f64 / MB as f64)`) when at least 1 MiB,
else whole kilobytes (`format!("{}KB", self.0 / KB)`).  The `as f64`
cast is exact for sizes below `2 ^ 53`, where the quotient is the exact
rational `bytes / 2 ^ 20` and `"{:.1}"` renders
`roundHalfEven (bytes * 10) 2 ^ 20` split into its units and tenths. -/
def SessionSize.format_display (s : SessionSize) : String :=
  if s.bytes ≥ 1024 * 1024 then
    let tenths := roundHalfEven (s.bytes * 10) (1024 * 1024)
    toString (tenths / 10) ++ "." ++ toString (tenths % 10) ++ "MB"
  else
    toString (s.bytes / 1024) ++ "KB"

/-- Tier color (`SizeThreshold::color`). -/
def SizeThreshold.color : SizeThreshold → RgbColor
  | SizeThreshold.Normal => RgbColor.GREEN
  | SizeThreshold.Warning => RgbColor.YELLOW
  | SizeThreshold.Critical => RgbColor.RED

/-- Tier indicator glyph (`SizeThreshold::indicator`). -/
def SizeThreshold.indicator : SizeThreshold → String
  | SizeThreshold.Normal => ""
  | SizeThreshold.Warning => "⚠️"
  | SizeThreshold.Critical => "🔴"

/-- Branch identification from `domain/git.rs` (`BranchInfo`). -/
inductive BranchInfo where
  | Branch (name : String)
  | Detached (hash : String)

/-- Git repository status record from `domain/git.rs` (`GitRepoStatus`);
the `u32` ahead/behind counts are embedded as `Nat`. -/
structure GitRepoStatus where
  branch : BranchInfo
  modified : Bool
  untracked : Bool
  ahead : Nat
  behind : Nat

/-- Git status from `domain/git.rs` (`GitStatus`). -/
inductive GitStatus where
  | NotRepo
  | Repo (status : GitRepoStatus)

/-- Status indicators (`GitRepoStatus::format_indicators`): a string
grown by conditional pushes of `*`, `?`, `↑{ahead}`, `↓{behind}`. -/
def GitRepoStatus.format_indicators (s : GitRepoStatus) : String :=
  let indicators := ""
  let indicators := if s.modified then indicators.push '*' else indicators
  let indicators := if s.untracked then indicators.push '?' else indicators
  let indicators :=
    if 0 < s.ahead then indicators ++ "↑" ++ toString s.ahead else indicators
  let indicators :=
    if 0 < s.behind then indicators ++ "↓" ++ toString s.behind else indicators
  indicators

/-- Branch display (`GitRepoStatus::format_branch`). -/
def GitRepoStatus.format_branch (s : GitRepoStatus) : String :=
  match s.branch with
  | BranchInfo.Branch name => name
  | BranchInfo.Detached hash => "(" ++ hash ++ ")"

/-- Full git display (`GitRepoStatus::format_full`): branch, then the
indicator string when it is non-empty (`indicators.is_empty()` is the
equality test against the empty string). -/
def GitRepoStatus.format_full (s : GitRepoStatus) : String :=
  let branch := s.format_branch
  let indicators := s.format_indicators
  if indicators = "" then branch else branch ++ indicators

/-- Model identity from `domain/input.rs` (`Model`). -/
structure Model where
  display_name : String

/-- Civil date (year, month, day) of a day count since 1970-01-01 in the
proleptic Gregorian calendar — the conversion underlying `chrono`'s
date formatting (Hinnant's `civil_from_days`). -/
def civilFromDays (z0 : Int) : Int × Nat × Nat :=
  let z := z0 + 719468
  let era := Int.fdiv z 146097
  let doe := (z - era * 146097).toNat
  let yoe := (doe - doe / 1460 + doe / 36524 - doe / 146096) / 365
  let y : Int := (yoe : Int) + era * 400
  let doy := doe - (365 * yoe + yoe / 4 - yoe / 100)
  let mp := (5 * doy + 2) / 153
  let d := doy - (153 * mp + 2) / 5 + 1
  let m := if mp < 10 then mp + 3 else mp - 9
  (if m ≤ 2 then y + 1 else y, m, d)

/-- Zero-pad a field to two digits, as `chrono`'s `%m`, `%d`, `%H`, `%M`
format specifiers do. -/
def pad2 (n : Nat) : String :=
  if n < 10 then "0" ++ toString n else toString n

/-- Usage cycle information from `domain/usage.rs` (`CycleInfo`); the
`DateTime<Utc>` reset instant is embedded as whole seconds since the
Unix epoch (its sub-second part never reaches the minute-resolution
display format). -/
structure CycleInfo where
  utilization : UsagePercentage
  resets_at : Int

/-- Reset-time display (`CycleInfo::format_reset_local`):
`self.resets_at.with_timezone(&Local).format("%m/%d %H:%M")`.  The
ambient local timezone of `chrono::Local` is the explicit parameter
`tz`, its UTC offset in seconds. -/
def CycleInfo.format_reset_local (c : CycleInfo) (tz : Int) : String :=
  let t := c.resets_at + tz
  let days := Int.fdiv t 86400
  let secsOfDay := (Int.fmod t 86400).toNat
  let md := (civilFromDays days).2
  let hh := secsOfDay / 3600
  let mm := secsOfDay % 3600 / 60
  pad2 md.1 ++ "/" ++ pad2 md.2 ++ " " ++ pad2 hh ++ ":" ++ pad2 mm

/-- Accumulated builder state from `display/status_line.rs`
(`StatusLineBuilder`). -/
structure StatusLineBuilder where
  project_name : Option String := none
  git_status : Option GitStatus := none
  model : Option Model := none
  context_usage : Option ContextUsageInfo := none
  five_hour : Option CycleInfo := none
  seven_day : Option CycleInfo := none
  session_size : Option SessionSize := none
  error_message : Option String := none

/-- Segment list accumulated by `StatusLineBuilder::build` before the
final join: the `parts` vector, pushed to in source order.  `tz` is the
ambient local-timezone offset consumed by `format_reset_local`. -/
def StatusLineBuilder.buildParts (tz : Int) (b : StatusLineBuilder) : List String :=
  let parts : List String := []
  let parts :=
    match b.model with
    | some model => parts ++ ["🤖 " ++ model.display_name]
    | none => parts
  let parts :=
    match b.context_usage with
    | some ctx =>
      let color := ctx.threshold.color
      let indicator := ctx.threshold.indicator
      let display := ctx.format_display
      let colored_display := color.colorize display
      if indicator = "" then parts ++ ["📊 " ++ colored_display]
      else parts ++ ["📊 " ++ colored_display ++ indicator]
    | none => parts
  let parts :=
    match b.error_message with
    | some error => parts ++ ["⚠️ " ++ error]
    | none =>
      let parts :=
        match b.five_hour with
        | some cycle =>
          let pct := cycle.utilization.val
          let color := cycle.utilization.threshold.color
          let colored_pct := color.colorize (toString pct ++ "%")
          let reset := cycle.format_reset_local tz
          parts ++ ["⚡ " ++ colored_pct ++ " @" ++ reset]
        | none => parts
      match b.seven_day with
      | some cycle =>
        let pct := cycle.utilization.val
        let color := cycle.utilization.threshold.color
        let colored_pct := color.colorize (toString pct ++ "%")
        let reset := cycle.format_reset_local tz
        parts ++ ["📅 " ++ colored_pct ++ " @" ++ reset]
      | none => parts
  let parts :=
    match b.project_name with
    | some name => parts ++ ["📁 " ++ name]
    | none => parts
  let parts :=
    match b.git_status with
    | some (GitStatus.Repo status) => parts ++ ["🌿 " ++ status.format_full]
    | _ => parts
  let parts :=
    match b.session_size with
    | some size =>
      let threshold := size.threshold
      let color := threshold.color
      let indicator := threshold.indicator
      let formatted := size.format_display
      let colored_size := color.colorize formatted
      if indicator = "" then parts ++ ["📄 " ++ colored_size]
      else parts ++ ["📄 " ++ colored_size ++ indicator]
    | none => parts
  parts

/-- Final render (`StatusLineBuilder::build`): `parts.join(" | ")`. -/
def StatusLineBuilder.build (tz : Int) (b : StatusLineBuilder) : String :=
  String.intercalate " | " (b.buildParts tz)

/-- One render call observed together with the builder state it leaves
behind: `build(&self)` borrows the builder immutably, so the state after
the call is the state before it. -/
def StatusLineBuilder.renderStep (tz : Int) (b : StatusLineBuilder) :
    String × StatusLineBuilder :=
  (b.build tz, b)

/-- Outputs of `n` successive render calls, each performed on the state
the previous call left behind. -/
def StatusLineBuilder.renders (tz : Int) (b : StatusLineBuilder) : Nat → List String
  | 0 => []
  | n + 1 =>
    let step := b.renderStep tz
    step.1 :: step.2.renders tz n

set_option maxHeartbeats 3000000 in
/-- Closed form of the segment list: each field contributes its zero or
one segments in the fixed source order, with the error field suppressing
both cycle segments. -/
theorem buildParts_eq (tz : Int) (b : StatusLineBuilder) :
    b.buildParts tz =
      (b.model.map fun model => "🤖 " ++ model.display_name).toList ++
      (b.context_usage.map fun ctx =>
        if ctx.threshold.indicator = "" then
          "📊 " ++ ctx.threshold.color.colorize ctx.format_display
        else
          "📊 " ++ ctx.threshold.color.colorize ctx.format_display ++
            ctx.threshold.indicator).toList ++
      (match b.error_message with
       | some error => ["⚠️ " ++ error]
       | none =>
         (b.five_hour.map fun cycle =>
           "⚡ " ++ cycle.utilization.threshold.color.colorize
             (toString cycle.utilization.val ++ "%") ++
             " @" ++ cycle.format_reset_local tz).toList ++
         (b.seven_day.map fun cycle =>
           "📅 " ++ cycle.utilization.threshold.color.colorize
             (toString cycle.utilization.val ++ "%") ++
             " @" ++ cycle.format_reset_local tz).toList) ++
      (b.project_name.map fun name => "📁 " ++ name).toList ++
      (match b.git_status with
       | some (GitStatus.Repo status) => ["🌿 " ++ status.format_full]
       | _ => []) ++
      (b.session_size.map fun size =>
        if size.threshold.indicator = "" then
          "📄 " ++ size.threshold.color.colorize size.format_display
        else
          "📄 " ++ size.threshold.color.colorize size.format_display ++
            size.threshold.indicator).toList := by
  rcases b with ⟨pn, gs, mo, cu, fh, sd, ss, em⟩
  simp only [StatusLineBuilder.buildParts]
  rcases mo with _ | m <;> rcases cu with _ | c <;>
    rcases em with _ | e <;> rcases fh with _ | f <;> rcases sd with _ | s7 <;>
    rcases pn with _ | p <;> rcases gs with _ | (_ | g) <;> rcases ss with _ | s <;>
    (simp; try (split_ifs <;> rfl))

/-- First character of a string that appends onto a non-empty literal. -/
theorem data_head_append (lit s : String) (c : Char) (cs : List Char)
    (h : lit.data = c :: cs) : (lit ++ s).data.head? = some c := by
  rw [String.data_append, h]; rfl

/-- First character through two appends. -/
theorem data_head_append2 (lit x y : String) (c : Char) (cs : List Char)
    (h : lit.data = c :: cs) : ((lit ++ x) ++ y).data.head? = some c := by
  rw [String.append_assoc]; exact data_head_append _ _ _ _ h

/-- First character through three appends. -/
theorem data_head_append3 (lit x y z : String) (c : Char) (cs : List Char)
    (h : lit.data = c :: cs) : (((lit ++ x) ++ y) ++ z).data.head? = some c := by
  rw [String.append_assoc, String.append_assoc]; exact data_head_append _ _ _ _ h

/-- Filtering an optional segment away when the predicate rejects it. -/
theorem filter_opt_nil {α : Type} (p : String → Bool) (o : Option α)
    (f : α → String) (h : ∀ x, p (f x) = false) :
    ((o.map f).toList).filter p = [] := by
  cases o <;> simp [h]

/-- Membership in an optional segment list exposes the witness field. -/
theorem mem_opt_toList {α : Type} {s : String} {o : Option α} {f : α → String}
    (hs : s ∈ (o.map f).toList) : ∃ x, s = f x := by
  cases o with
  | none => simp at hs
  | some x =>
    simp at hs
    exact ⟨x, hs⟩

/-- Scanning an optional segment accepted by the predicate reports
whether the field is set. -/
theorem any_opt_isSome {α : Type} (p : String → Bool) (o : Option α)
    (f : α → String) (h : ∀ x, p (f x) = true) :
    ((o.map f).toList).any p = o.isSome := by
  cases o <;> simp [h]

/-- Scanning an optional segment rejected by the predicate yields false. -/
theorem any_opt_false {α : Type} (p : String → Bool) (o : Option α)
    (f : α → String) (h : ∀ x, p (f x) = false) :
    ((o.map f).toList).any p = false := by
  cases o <;> simp [h]

/-- First character of a model segment. -/
theorem head_model (s : String) : ("🤖 " ++ s).data.head? = some '🤖' :=
  data_head_append _ _ _ _ rfl

/-- First character of a context segment without indicator. -/
theorem head_ctx (s : String) : ("📊 " ++ s).data.head? = some '📊' :=
  data_head_append _ _ _ _ rfl

/-- First character of a context segment with indicator. -/
theorem head_ctx2 (s t : String) : (("📊 " ++ s) ++ t).data.head? = some '📊' :=
  data_head_append2 _ _ _ _ _ rfl

/-- First character of an error segment. -/
theorem head_err (s : String) : ("⚠️ " ++ s).data.head? = some '⚠' :=
  data_head_append _ _ _ _ rfl

/-- First character of a five-hour cycle segment. -/
theorem head_five (x y z : String) :
    ((("⚡ " ++ x) ++ y) ++ z).data.head? = some '⚡' :=
  data_head_append3 _ _ _ _ _ _ rfl

/-- First character of a seven-day cycle segment. -/
theorem head_seven (x y z : String) :
    ((("📅 " ++ x) ++ y) ++ z).data.head? = some '📅' :=
  data_head_append3 _ _ _ _ _ _ rfl

/-- First character of a project segment. -/
theorem head_proj (s : String) : ("📁 " ++ s).data.head? = some '📁' :=
  data_head_append _ _ _ _ rfl

/-- First character of a git segment. -/
theorem head_git (s : String) : ("🌿 " ++ s).data.head? = some '🌿' :=
  data_head_append _ _ _ _ rfl

/-- First character of a session-size segment without indicator. -/
theorem head_size (s : String) : ("📄 " ++ s).data.head? = some '📄' :=
  data_head_append _ _ _ _ rfl

/-- First character of a session-size segment with indicator. -/
theorem head_size2 (s t : String) : (("📄 " ++ s) ++ t).data.head? = some '📄' :=
  data_head_append2 _ _ _ _ _ rfl

set_option maxHeartbeats 4000000 in
/-- C1: when an error message is set, the segment list of the rendered
line contains exactly one error segment `"⚠️ {message}"` (the segments
whose first character is the warning glyph are exactly that one) and no
short-cycle `⚡` and no long-cycle `📅` segment (filtering on either
cycle glyph yields nothing), even when both cycle fields are set; when
no error message is set, a `⚡` segment appears iff the five-hour field
is set and a `📅` segment appears iff the seven-day field is set. -/
theorem C1_error_suppresses_cycles (tz : Int) (b : StatusLineBuilder) :
    (∀ msg, b.error_message = some msg →
      (b.buildParts tz).filter (fun s => s.data.head? == some '⚠') = ["⚠️ " ++ msg] ∧
      (b.buildParts tz).filter (fun s => s.data.head? == some '⚡') = [] ∧
      (b.buildParts tz).filter (fun s => s.data.head? == some '📅') = []) ∧
    (b.error_message = none →
      (b.buildParts tz).any (fun s => s.data.head? == some '⚡') = b.five_hour.isSome ∧
      (b.buildParts tz).any (fun s => s.data.head? == some '📅') = b.seven_day.isSome) := by
  rcases b with ⟨pn, gs, mo, cu, fh, sd, ss, em⟩
  constructor
  · intro msg hmsg
    simp only at hmsg
    subst hmsg
    simp only [StatusLineBuilder.buildParts]
    rcases mo with _ | m <;> rcases cu with _ | c <;>
      rcases pn with _ | p <;> rcases gs with _ | (_ | g) <;> rcases ss with _ | s <;>
      (try dsimp only) <;> (try split_ifs) <;>
      simp [head_model, head_ctx, head_ctx2, head_err, head_proj,
        head_git, head_size, head_size2]
  · intro hnone
    simp only at hnone
    subst hnone
    simp only [StatusLineBuilder.buildParts]
    rcases mo with _ | m <;> rcases cu with _ | c <;>
      rcases fh with _ | f <;> rcases sd with _ | s7 <;>
      rcases pn with _ | p <;> rcases gs with _ | (_ | g) <;> rcases ss with _ | s <;>
      (try dsimp only) <;> (try split_ifs) <;>
      simp [head_model, head_ctx, head_ctx2, head_five, head_seven,
        head_proj, head_git, head_size, head_size2]

/-- Builder state with an error message and both cycles set, used to
instantiate the error-override behavior. -/
def sampleErrBuilder : StatusLineBuilder :=
  { error_message := some "No creds",
    five_hour := some ⟨UsagePercentage.new 35, 0⟩,
    seven_day := some ⟨UsagePercentage.new 68, 0⟩ }

/-- Builder state with no error and only the five-hour cycle set. -/
def sampleCycleBuilder : StatusLineBuilder :=
  { five_hour := some ⟨UsagePercentage.new 35, 0⟩ }

/-- Witness for C1: the error-override and the independent cycle
emission, instantiated at concrete builder states. -/
theorem C1_error_suppresses_cycles_witness :
    ((sampleErrBuilder.buildParts 0).filter
        (fun s => s.data.head? == some '⚠') = ["⚠️ " ++ "No creds"] ∧
      (sampleErrBuilder.buildParts 0).filter
        (fun s => s.data.head? == some '⚡') = [] ∧
      (sampleErrBuilder.buildParts 0).filter
        (fun s => s.data.head? == some '📅') = []) ∧
    ((sampleCycleBuilder.buildParts 0).any
        (fun s => s.data.head? == some '⚡') = true ∧
      (sampleCycleBuilder.buildParts 0).any
        (fun s => s.data.head? == some '📅') = false) :=
  ⟨(C1_error_suppresses_cycles 0 sampleErrBuilder).1 "No creds" rfl,
   (C1_error_suppresses_cycles 0 sampleCycleBuilder).2 rfl⟩

/-- C2: the rendered line is the `" | "`-join of at most one segment per
field, in the fixed order model, context usage, error-or-cycles, project
name, git, session size; model, context usage, project name and session
size segments appear iff their fields are set, and the git segment
appears iff the git field is set with the repository variant (the
not-a-repository variant and an absent field both suppress it). -/
theorem C2_segment_order (tz : Int) (b : StatusLineBuilder) :
    b.build tz =
      String.intercalate " | "
        ((b.model.map fun model => "🤖 " ++ model.display_name).toList ++
        (b.context_usage.map fun ctx =>
          if ctx.threshold.indicator = "" then
            "📊 " ++ ctx.threshold.color.colorize ctx.format_display
          else
            "📊 " ++ ctx.threshold.color.colorize ctx.format_display ++
              ctx.threshold.indicator).toList ++
        (match b.error_message with
         | some error => ["⚠️ " ++ error]
         | none =>
           (b.five_hour.map fun cycle =>
             "⚡ " ++ cycle.utilization.threshold.color.colorize
               (toString cycle.utilization.val ++ "%") ++
               " @" ++ cycle.format_reset_local tz).toList ++
           (b.seven_day.map fun cycle =>
             "📅 " ++ cycle.utilization.threshold.color.colorize
               (toString cycle.utilization.val ++ "%") ++
               " @" ++ cycle.format_reset_local tz).toList) ++
        (b.project_name.map fun name => "📁 " ++ name).toList ++
        (match b.git_status with
         | some (GitStatus.Repo status) => ["🌿 " ++ status.format_full]
         | _ => []) ++
        (b.session_size.map fun size =>
          if size.threshold.indicator = "" then
            "📄 " ++ size.threshold.color.colorize size.format_display
          else
            "📄 " ++ size.threshold.color.colorize size.format_display ++
              size.threshold.indicator).toList) := by
  rw [StatusLineBuilder.build, buildParts_eq]

/-- C3: both threshold classifiers are half-open on the low end and
closed upward: a usage percentage is Normal iff it is below 50, Warning
iff it is in `[50, 75)`, Critical iff it is at least 75 (so 49 is
Normal, 50 and 74 are Warning, 75 is Critical), and a byte count is
Normal iff below 5 MiB, Warning iff in `[5·2^20, 15·2^20)`, Critical iff
at least 15 MiB. -/
theorem C3_threshold_boundaries :
    (∀ p : UsagePercentage,
      (p.threshold = UsageThreshold.Normal ↔ p.val < 50) ∧
      (p.threshold = UsageThreshold.Warning ↔ 50 ≤ p.val ∧ p.val < 75) ∧
      (p.threshold = UsageThreshold.Critical ↔ 75 ≤ p.val)) ∧
    (∀ s : SessionSize,
      (s.threshold = SizeThreshold.Normal ↔ s.bytes < 5 * 2 ^ 20) ∧
      (s.threshold = SizeThreshold.Warning ↔
        5 * 2 ^ 20 ≤ s.bytes ∧ s.bytes < 15 * 2 ^ 20) ∧
      (s.threshold = SizeThreshold.Critical ↔ 15 * 2 ^ 20 ≤ s.bytes)) ∧
    (UsagePercentage.new 49).threshold = UsageThreshold.Normal ∧
    (UsagePercentage.new 50).threshold = UsageThreshold.Warning ∧
    (UsagePercentage.new 74).threshold = UsageThreshold.Warning ∧
    (UsagePercentage.new 75).threshold = UsageThreshold.Critical ∧
    SessionSize.threshold ⟨5 * 2 ^ 20 - 1⟩ = SizeThreshold.Normal ∧
    SessionSize.threshold ⟨5 * 2 ^ 20⟩ = SizeThreshold.Warning ∧
    SessionSize.threshold ⟨15 * 2 ^ 20 - 1⟩ = SizeThreshold.Warning ∧
    SessionSize.threshold ⟨15 * 2 ^ 20⟩ = SizeThreshold.Critical := by
  refine ⟨fun p => ?_, fun s => ?_, by decide, by decide, by decide, by decide,
    by decide, by decide, by decide, by decide⟩
  · unfold UsagePercentage.threshold
    split_ifs with h1 h2 <;> simp <;> omega
  · unfold SessionSize.threshold
    split_ifs with h1 h2 <;> simp <;> omega

/-- C4 counterexample: the claim that the percentage is always the
mathematical floor of `used·100/total` fails at `used = total = 2^62`,
where the `u64` product wraps to zero and the code yields 0 instead of
100. -/
theorem C4_counterexample :
    ContextUsageInfo.percentage ⟨2 ^ 62, 2 ^ 62⟩ = 0 ∧
    2 ^ 62 * 100 / 2 ^ 62 = 100 ∧
    ¬ContextUsageInfo.percentage ⟨2 ^ 62, 2 ^ 62⟩ = 2 ^ 62 * 100 / 2 ^ 62 := by
  refine ⟨by decide, by decide, by decide⟩

/-- C4 (amended): if the total is zero the percentage is zero, and
otherwise — provided `used·100` fits in 64 bits — it is the integer
floor of `used·100/total`; the context tier of the computed percentage
is Normal iff it is below 70, Warning iff it is in `[70, 90)` and
Critical iff it is at least 90; in particular 50000 used of 200000
total displays as `"25%"`, is classified Normal, and carries no
indicator glyph. -/
theorem C4_context_percentage (used total : Nat) (h : used * 100 < 2 ^ 64) :
    (total = 0 → ContextUsageInfo.percentage ⟨used, total⟩ = 0) ∧
    (total ≠ 0 → ContextUsageInfo.percentage ⟨used, total⟩ = used * 100 / total) ∧
    (∀ c : ContextUsageInfo,
      (c.threshold = ContextThreshold.Normal ↔ c.percentage < 70) ∧
      (c.threshold = ContextThreshold.Warning ↔
        70 ≤ c.percentage ∧ c.percentage < 90) ∧
      (c.threshold = ContextThreshold.Critical ↔ 90 ≤ c.percentage)) ∧
    ContextUsageInfo.format_display ⟨50000, 200000⟩ = "25%" ∧
    ContextUsageInfo.threshold ⟨50000, 200000⟩ = ContextThreshold.Normal ∧
    (ContextUsageInfo.threshold ⟨50000, 200000⟩).indicator = "" := by
  refine ⟨fun ht => ?_, fun ht => ?_, fun c => ?_, by decide, by decide, by decide⟩
  · simp [ContextUsageInfo.percentage, ht]
  · have hm : used * 100 % 18446744073709551616 = used * 100 :=
      Nat.mod_eq_of_lt (by omega)
    simp [ContextUsageInfo.percentage, ht, hm]
  · unfold ContextUsageInfo.threshold
    dsimp only
    split_ifs with h1 h2 <;> simp <;> omega

/-- Witness for C4 (amended) at the end-to-end scenario 50000/200000. -/
theorem C4_context_percentage_witness :
    ContextUsageInfo.percentage ⟨50000, 200000⟩ = 50000 * 100 / 200000 ∧
    (ContextUsageInfo.threshold ⟨50000, 200000⟩ = ContextThreshold.Normal ↔
      ContextUsageInfo.percentage ⟨50000, 200000⟩ < 70) ∧
    ContextUsageInfo.format_display ⟨50000, 200000⟩ = "25%" := by
  have h := C4_context_percentage 50000 200000 (by decide)
  exact ⟨h.2.1 (by decide), (h.2.2.1 ⟨50000, 200000⟩).1, h.2.2.2.1⟩

/-- C5: `from_float` clamps the rounded input into `[0, 100]` — its value
is exactly `clamp(round(p), 0, 100)` for every rational `p`, with
`from_float 35.5 = 36`, `from_float (-10) = 0`, `from_float 150 = 100` —
and every percentage built by `new` or `from_float` satisfies the range
invariant `value ≤ 100` (values are naturals, so `0 ≤ value` is
inherent). -/
theorem C5_from_float_clamps :
    (∀ q : ℚ, (UsagePercentage.from_float q).val =
      Int.toNat (max 0 (min 100 (rround q)))) ∧
    (UsagePercentage.from_float 35.5).val = 36 ∧
    (UsagePercentage.from_float (-10)).val = 0 ∧
    (UsagePercentage.from_float 150).val = 100 ∧
    (∀ value : Nat, (UsagePercentage.new value).val ≤ 100) ∧
    (∀ q : ℚ, (UsagePercentage.from_float q).val ≤ 100) := by
  have hval : ∀ q : ℚ, (UsagePercentage.from_float q).val =
      Int.toNat (max 0 (min 100 (rround q))) := by
    intro q
    simp only [UsagePercentage.from_float, UsagePercentage.new]
    omega
  have h355 : rround 35.5 = 36 := by
    rw [rround, if_pos (by norm_num)]
    norm_num
  have hm10 : rround (-10) = -10 := by
    rw [rround, if_neg (by norm_num)]
    norm_num
  have h150 : rround 150 = 150 := by
    rw [rround, if_pos (by norm_num)]
    norm_num
  refine ⟨hval, ?_, ?_, ?_, fun v => ?_, fun q => ?_⟩
  · rw [hval, h355]; rfl
  · rw [hval, hm10]; rfl
  · rw [hval, h150]; rfl
  · simp only [UsagePercentage.new]; omega
  · rw [hval]; omega

/-- The full git display is always the branch display followed by the
indicator string (the source's empty-indicator special case changes
nothing). -/
theorem format_full_eq (s : GitRepoStatus) :
    s.format_full = s.format_branch ++ s.format_indicators := by
  simp only [GitRepoStatus.format_full]
  split_ifs with h
  · rw [h, String.append_empty]
  · rfl

/-- The indicator string is the fixed-order concatenation of the four
conditional markers. -/
theorem format_indicators_eq (s : GitRepoStatus) :
    s.format_indicators =
      (if s.modified then "*" else "") ++ (if s.untracked then "?" else "") ++
      (if 0 < s.ahead then "↑" ++ toString s.ahead else "") ++
      (if 0 < s.behind then "↓" ++ toString s.behind else "") := by
  rcases s with ⟨br, mo, un, ah, be⟩
  simp only [GitRepoStatus.format_indicators]
  cases mo <;> cases un <;> split_ifs <;>
    simp [String.ext_iff, String.data_append, String.push]

/-- C6: the git summary is the branch name verbatim (or the
parenthesized short hash when detached) followed by, in fixed order,
`*` iff modified, `?` iff untracked, `↑{ahead}` iff ahead is positive
and `↓{behind}` iff behind is positive; a clean named branch renders as
the bare branch name, modified+untracked+ahead=2+behind=1 renders as
`"{branch}*?↑2↓1"`, and a detached `abc1234` renders as `"(abc1234)"`. -/
theorem C6_git_summary :
    (∀ s : GitRepoStatus,
      s.format_full = s.format_branch ++
        ((if s.modified then "*" else "") ++ (if s.untracked then "?" else "") ++
         (if 0 < s.ahead then "↑" ++ toString s.ahead else "") ++
         (if 0 < s.behind then "↓" ++ toString s.behind else ""))) ∧
    (∀ name hash,
      GitRepoStatus.format_branch ⟨BranchInfo.Branch name, false, false, 0, 0⟩ = name ∧
      GitRepoStatus.format_branch ⟨BranchInfo.Detached hash, false, false, 0, 0⟩ =
        "(" ++ hash ++ ")") ∧
    (∀ name,
      GitRepoStatus.format_full ⟨BranchInfo.Branch name, false, false, 0, 0⟩ = name) ∧
    (∀ name,
      GitRepoStatus.format_full ⟨BranchInfo.Branch name, true, true, 2, 1⟩ =
        name ++ "*?↑2↓1") ∧
    GitRepoStatus.format_full ⟨BranchInfo.Detached "abc1234", false, false, 0, 0⟩ =
      "(abc1234)" := by
  refine ⟨fun s => ?_, fun name hash => ⟨rfl, rfl⟩, fun name => ?_, fun name => ?_,
    by decide⟩
  · rw [format_full_eq, format_indicators_eq]
  · rw [format_full_eq, format_indicators_eq]
    simp [GitRepoStatus.format_branch, String.append_empty]
  · rw [format_full_eq, format_indicators_eq]
    have h2 : toString (2 : Nat) = "2" := rfl
    have h1 : toString (1 : Nat) = "1" := rfl
    simp [GitRepoStatus.format_branch, h1, h2, String.ext_iff, String.data_append]

/-- C7: a byte count of at least 1 MiB renders as a one-decimal megabyte
string `"{x.x}MB"` and a smaller one as the floored whole-kilobyte
string `"{n}KB"`; in particular 512·1024 bytes give `"512KB"`,
2·2^20 + 512·1024 bytes give `"2.5MB"` and exactly 2^20 bytes give
`"1.0MB"`. -/
theorem C7_byte_size_display (s : SessionSize) :
    (1024 * 1024 ≤ s.bytes →
      ∃ n d : Nat, d < 10 ∧
        s.format_display = toString n ++ "." ++ toString d ++ "MB") ∧
    (s.bytes < 1024 * 1024 →
      s.format_display = toString (s.bytes / 1024) ++ "KB") ∧
    SessionSize.format_display ⟨512 * 1024⟩ = "512KB" ∧
    SessionSize.format_display ⟨2 * 1024 * 1024 + 512 * 1024⟩ = "2.5MB" ∧
    SessionSize.format_display ⟨1024 * 1024⟩ = "1.0MB" := by
  refine ⟨fun h => ?_, fun h => ?_, by decide, by decide, by decide⟩
  · refine ⟨roundHalfEven (s.bytes * 10) (1024 * 1024) / 10,
      roundHalfEven (s.bytes * 10) (1024 * 1024) % 10,
      Nat.mod_lt _ (by decide), ?_⟩
    simp [SessionSize.format_display, h, ge_iff_le]
  · simp [SessionSize.format_display, Nat.not_le.mpr h]

/-- Witness for C7 at 1 MiB (megabyte branch) and 512 KiB (kilobyte
branch). -/
theorem C7_byte_size_display_witness :
    (∃ n d : Nat, d < 10 ∧
      SessionSize.format_display ⟨1024 * 1024⟩ =
        toString n ++ "." ++ toString d ++ "MB") ∧
    SessionSize.format_display ⟨512 * 1024⟩ =
      toString (512 * 1024 / 1024) ++ "KB" :=
  ⟨(C7_byte_size_display ⟨1024 * 1024⟩).1 (by decide),
   (C7_byte_size_display ⟨512 * 1024⟩).2.1 (by decide)⟩

/-- C8 counterexample: the five-hour segment of a 35%-utilization cycle
resetting at the epoch (offset 0) colorizes the percent sign together
with the number; it is not the claimed form in which the percent sign
follows the color reset. -/
theorem C8_counterexample :
    sampleCycleBuilder.buildParts 0 =
      ["⚡ " ++ RgbColor.GREEN.colorize ("35" ++ "%") ++ " @" ++ "01/01 00:00"] ∧
    ¬sampleCycleBuilder.buildParts 0 =
      ["⚡ " ++ RgbColor.GREEN.colorize "35" ++ "%" ++ " @" ++ "01/01 00:00"] := by
  refine ⟨by decide, by decide⟩

/-- C8 (amended): with no error set, a set five-hour cycle contributes
the segment `"⚡ {colorized (percentage ++ "%")} @{local reset}"` and a
set seven-day cycle the segment
`"📅 {colorized (percentage ++ "%")} @{local reset}"` — the percent sign
is wrapped inside the colorization together with the value — where the
reset instant is rendered at the local offset `tz` (not UTC) as
month/day hour:minute, each zero-padded to two digits, 24-hour clock. -/
theorem C8_cycle_segments (tz : Int) (b : StatusLineBuilder)
    (hn : b.error_message = none) :
    (∀ c, b.five_hour = some c →
      ("⚡ " ++ c.utilization.threshold.color.colorize
          (toString c.utilization.val ++ "%") ++
        " @" ++ c.format_reset_local tz) ∈ b.buildParts tz) ∧
    (∀ c, b.seven_day = some c →
      ("📅 " ++ c.utilization.threshold.color.colorize
          (toString c.utilization.val ++ "%") ++
        " @" ++ c.format_reset_local tz) ∈ b.buildParts tz) ∧
    (∀ c : CycleInfo,
      c.format_reset_local tz =
        pad2 (civilFromDays ((c.resets_at + tz).fdiv 86400)).2.1 ++ "/" ++
        pad2 (civilFromDays ((c.resets_at + tz).fdiv 86400)).2.2 ++ " " ++
        pad2 (((c.resets_at + tz).fmod 86400).toNat / 3600) ++ ":" ++
        pad2 (((c.resets_at + tz).fmod 86400).toNat % 3600 / 60)) := by
  refine ⟨fun c h5 => ?_, fun c h7 => ?_, fun c => rfl⟩
  · rw [buildParts_eq, hn]
    simp [h5]
  · rw [buildParts_eq, hn]
    simp [h7]

/-- Witness for C8 (amended) at the concrete five-hour-only builder. -/
theorem C8_cycle_segments_witness :
    ("⚡ " ++ RgbColor.GREEN.colorize (toString (UsagePercentage.new 35).val ++ "%") ++
      " @" ++ CycleInfo.format_reset_local ⟨UsagePercentage.new 35, 0⟩ 0) ∈
      sampleCycleBuilder.buildParts 0 :=
  (C8_cycle_segments 0 sampleCycleBuilder rfl).1 ⟨UsagePercentage.new 35, 0⟩ rfl

/-- C9: rendering is pure and deterministic in the accumulated state —
`build` borrows the builder immutably, so any number of successive
render calls returns the same string every time and the state after a
call is the state before it. -/
theorem C9_render_pure (tz : Int) (b : StatusLineBuilder) (n : Nat) :
    b.renders tz n = List.replicate n (b.build tz) ∧ (b.renderStep tz).2 = b := by
  constructor
  · induction n with
    | zero => rfl
    | succ k ih =>
      simp [StatusLineBuilder.renders, StatusLineBuilder.renderStep, ih,
        List.replicate_succ]
  · rfl

/-- C10 counterexample: at used = 201, total = 200 the percentage is
exactly 100, so it does not exceed 100 even though used > total. -/
theorem C10_counterexample :
    ContextUsageInfo.percentage ⟨201, 200⟩ = 100 ∧
    200 < 201 ∧
    ¬100 < ContextUsageInfo.percentage ⟨201, 200⟩ := by
  refine ⟨by decide, by decide, by decide⟩

/-- C10 (amended): the context percentage is not clamped to 100: when
the total is positive and `used·100` fits in 64 bits it is the exact
floor of `used·100/total`, which is at least 100 whenever used exceeds
total (and can exceed 100: 300000 of 200000 yields 150, displayed
`"150%"` and classified Critical); and for `used > ⌊2^64/100⌋` the
64-bit product wraps, differing from the mathematical product. -/
theorem C10_percentage_unclamped (used total : Nat) :
    (0 < total → used * 100 < 2 ^ 64 →
      ContextUsageInfo.percentage ⟨used, total⟩ = used * 100 / total) ∧
    (0 < total → total < used → used * 100 < 2 ^ 64 →
      100 ≤ ContextUsageInfo.percentage ⟨used, total⟩) ∧
    ContextUsageInfo.percentage ⟨300000, 200000⟩ = 150 ∧
    ContextUsageInfo.format_display ⟨300000, 200000⟩ = "150%" ∧
    ContextUsageInfo.threshold ⟨300000, 200000⟩ = ContextThreshold.Critical ∧
    (2 ^ 64 / 100 < used → used * 100 % 2 ^ 64 ≠ used * 100) := by
  have hfloor : 0 < total → used * 100 < 2 ^ 64 →
      ContextUsageInfo.percentage ⟨used, total⟩ = used * 100 / total := by
    intro ht h
    have hm : used * 100 % 18446744073709551616 = used * 100 :=
      Nat.mod_eq_of_lt (by omega)
    simp [ContextUsageInfo.percentage, Nat.pos_iff_ne_zero.mp ht, hm]
  refine ⟨hfloor, fun ht htu h => ?_, by decide, by decide, by decide,
    fun hu heq => ?_⟩
  · rw [hfloor ht h]
    exact (Nat.le_div_iff_mul_le ht).mpr (by omega)
  · omega

/-- Witness for C10 (amended): the floor form and the at-least-100 bound
at 300000/200000, and the wrap at the first used value past
`⌊2^64/100⌋`. -/
theorem C10_percentage_unclamped_witness :
    ContextUsageInfo.percentage ⟨300000, 200000⟩ = 300000 * 100 / 200000 ∧
    100 ≤ ContextUsageInfo.percentage ⟨300000, 200000⟩ ∧
    184467440737095517 * 100 % 2 ^ 64 ≠ 184467440737095517 * 100 := by
  have h := C10_percentage_unclamped 300000 200000
  have h2 := C10_percentage_unclamped 184467440737095517 1
  exact ⟨h.1 (by decide) (by decide), h.2.1 (by decide) (by decide) (by decide),
    h2.2.2.2.2.2 (by decide)⟩

end StatusLine

